import Mathlib

/-!
Shallow embedding of the `auth` request handler of `src/src/handlers/auth.rs`
(portier-broker). The handler orchestrates one authentication attempt:
parameter validation, binding of the return channel, origin whitelist check,
login-hint branch, email normalization, rate limiting, session initiation,
webfinger discovery composed with OIDC-bridge dispatch and raced against a
fixed 5-second timeout, and the email-loop fallback policy.

External collaborators (webfinger client, bridges, rate-limit store, URL and
email parsing) are parameters of an `Env` record; the control flow of the
handler itself is translated statement by statement from the Rust source.
Asynchronous structure is modelled with explicit durations (in seconds): each
future carries the time at which it would resolve, and the `select2` race
against the 5-second `Timeout` is decided by comparing that duration with the
deadline. The task detached by `handle.spawn` on a timeout is recorded in the
run output together with the effects it produces when it eventually completes.
-/

namespace PortierAuth

/-- Equality of `Except` values is decidable when it is on both components;
used to evaluate the embedding on concrete inputs. -/
instance {ε : Type u} {α : Type v} [DecidableEq ε] [DecidableEq α] :
    DecidableEq (Except ε α) := fun x y =>
  match x, y with
  | .ok a, .ok b =>
    if h : a = b then .isTrue (by rw [h])
    else .isFalse (fun hc => h (Except.ok.inj hc))
  | .error a, .error b =>
    if h : a = b then .isTrue (by rw [h])
    else .isFalse (fun hc => h (Except.error.inj hc))
  | .ok _, .error _ => .isFalse (fun hc => Except.noConfusion hc)
  | .error _, .ok _ => .isFalse (fun hc => Except.noConfusion hc)

/-- A parsed absolute URL, as produced by `parse_redirect_uri`.
`originAscii` is the ASCII serialization of its origin
(`url.origin().ascii_serialization()` in the source), `full` its full
serialization (`url.to_string()`). -/
structure Url where
  originAscii : String
  full : String
deriving DecidableEq, Repr

/-- A validated, normalized email address (the `EmailAddress` value).
`s` is the normalized string form, returned by both `as_str` and `Display`. -/
structure EmailAddr where
  s : String
deriving DecidableEq, Repr

/-- Modelled from the spec: the `webfinger::Relation` enumeration (the
`webfinger` module is not under `src/`). The spec's data model lists
`relation: OidcIssuer|Portier|Google|other`; `Other` stands for the
unsupported relations covered by the `_` arm of the dispatch match. -/
inductive Relation where
  | OidcIssuer
  | Portier
  | Google
  | Other
deriving DecidableEq, Repr

/-- Modelled from the spec: a `webfinger::Link`, `{relation, endpoint data}`.
The endpoint data is opaque to the handler; it is kept as a string. -/
structure Link where
  rel : Relation
  href : String
deriving DecidableEq, Repr

/-- Modelled from the spec: the `BrokerError` taxonomy of the `error` module
(not under `src/`): Input, RateLimited, Provider, ProviderCancelled, and an
unclassified category for environment faults (`Internal`). -/
inductive BrokerError where
  | Input (msg : String)
  | RateLimited
  | Provider (msg : String)
  | ProviderCancelled
  | Internal (msg : String)
deriving DecidableEq, Repr

/-- Modelled from the spec: the `ResponseMode` enumeration of the `http`
module (not under `src/`): exactly `fragment` or `form_post`. -/
inductive ResponseMode where
  | Fragment
  | FormPost
deriving DecidableEq, Repr

/-- Modelled from the spec: deserializing a `ResponseMode` from a JSON string
(the `from_value(Value::String(..))` call); only the two spelled forms parse. -/
def parseResponseMode (s : String) : Option ResponseMode :=
  if s = "fragment" then some .Fragment
  else if s = "form_post" then some .FormPost
  else none

/-- Rust's `str::parse::<bool>()`: accepts exactly the literals
`true` and `false`. -/
def parseBoolLit (s : String) : Option Bool :=
  if s = "true" then some true
  else if s = "false" then some false
  else none

/-- The `ReturnParams` slot contents (`ctx.return_params`). -/
structure ReturnParams where
  redirectUri : Url
  responseMode : ResponseMode
  responseErrors : Bool
  state : String
deriving DecidableEq, Repr

/-- The session data passed to `ctx.start_session(&client_id, &login_hint,
&email_addr, &nonce)`. -/
structure Session where
  clientId : String
  loginHint : String
  emailAddr : EmailAddr
  nonce : String
deriving DecidableEq, Repr

/-- A successful handler response. `loginHintForm` is the interactive HTML
form built in the empty-login_hint branch, carrying the data inserted into
the mustache template: the display origin (`redirect_uri_.to_string()`), the
form action (`{public_url}/auth`), the request method, and the hidden
re-submission fields built from `original_params`. Bridge responses are
opaque; `ext` tags them. -/
inductive Response where
  | loginHintForm (displayOrigin : String) (formAction : String)
      (method : String) (params : List (String × String))
  | ext (tag : Nat)
deriving DecidableEq, Repr

/-- The request method; the handler is routed only for GET and POST
(`_ => unreachable!()`). -/
inductive Method where
  | Get
  | Post
deriving DecidableEq, Repr

def methodStr : Method → String
  | .Get => "GET"
  | .Post => "POST"

/-- The environment of one request: the request data and the behaviour of
every external collaborator. Durations (in whole seconds) model when each
asynchronous operation would resolve: `discoverySecs` for the webfinger
query, `oidcSecs` for the OIDC bridge call chained onto it. -/
structure Env where
  method : Method
  queryParams : List (String × String)
  formParams : List (String × String)
  /-- Behaviour of `validation::parse_redirect_uri` (module not under `src/`): on failure
  the formatted error message that the handler wraps in `Input`. -/
  parseRedirectUri : String → Except String Url
  /-- Behaviour of `login_hint.parse::<EmailAddress>()`, yielding the normalized address. -/
  parseEmail : String → Option EmailAddr
  allowedOrigins : Option (List String)
  publicUrl : String
  /-- Behaviour of `store_limits::addr_limiter(store, addr, limit)`: a store-level error,
  or whether the attempt is allowed. -/
  addrLimiter : String → Except BrokerError Bool
  /-- Behaviour of `webfinger::query(app, email)`: a classified error or the ordered link
  sequence. -/
  webfingerResult : EmailAddr → Except BrokerError (List Link)
  discoverySecs : Nat
  oidcSecs : Nat
  /-- Behaviour of `bridges::oidc::auth(ctx, email, link)`. -/
  oidcAuth : EmailAddr → Link → Except BrokerError Response
  /-- Behaviour of `bridges::email::auth(ctx, email)`. -/
  emailAuth : EmailAddr → Except BrokerError Response

/-- The parameter source: `ctx.query_params()` for GET, `ctx.form_params()` for POST. -/
def selectedParams (env : Env) : List (String × String) :=
  match env.method with
  | .Get => env.queryParams
  | .Post => env.formParams

/-- Parameter lookup in the parsed parameter map. -/
def getParam (params : List (String × String)) (name : String) : Option String :=
  (params.find? (fun p => p.1 = name)).map (fun p => p.2)

/-- Modelled from the spec: the missing-parameter `Input` message of the
`try_get_input_param!` macro (`macros` module not under `src/`); the spec
says a missing required parameter fails with an Input error naming it. -/
def missingMsg (name : String) : String :=
  "missing request parameter " ++ name

/-- Behaviour of `try_get_input_param!(params, name, default)`: the parameter's value, or
the default when absent. -/
def paramOr (params : List (String × String)) (name dflt : String) : String :=
  (getParam params name).getD dflt

/-- The values validated before the Return Params slot is bound
(source lines 75-103). -/
structure ValidatedA where
  url : Url
  clientId : String
  responseMode : ResponseMode
  responseErrors : Bool
  state : String
deriving DecidableEq, Repr

/-- The validation steps following the client_id/origin check, source lines
91-103: `response_mode` parsing, then `response_errors` parsing. -/
def phaseA2 (rm re : String) (url : Url) (cid st : String) : Except String ValidatedA :=
  match parseResponseMode rm with
  | none => .error "unsupported response_mode, must be fragment or form_post"
  | some responseMode =>
    match parseBoolLit re with
    | none => .error "response_errors must be true or false"
    | some responseErrors =>
      .ok ⟨url, cid, responseMode, responseErrors, st⟩

/-- The validation prefix of the handler, source lines 75-103, in source
order: extraction of `redirect_uri` and `client_id` (required) and
`response_mode`/`response_errors`/`state` (defaulted, so their extraction
cannot fail), URL parsing, the client_id/origin check, and `phaseA2`.
Every failure is an `Input` error raised while the Return Params slot is
still unset. -/
def phaseA (env : Env) : Except String ValidatedA :=
  match getParam (selectedParams env) "redirect_uri" with
  | none => .error (missingMsg "redirect_uri")
  | some ru =>
    match getParam (selectedParams env) "client_id" with
    | none => .error (missingMsg "client_id")
    | some cid =>
      match env.parseRedirectUri ru with
      | .error e => .error e
      | .ok url =>
        if cid ≠ url.originAscii then
          .error "the client_id must be the origin of the redirect_uri"
        else
          phaseA2 (paramOr (selectedParams env) "response_mode" "fragment")
            (paramOr (selectedParams env) "response_errors" "true")
            url cid
            (paramOr (selectedParams env) "state" "")

/-- The Return Params bound right after `phaseA` succeeds (source line 108). -/
def mkReturnParams (a : ValidatedA) : ReturnParams :=
  ⟨a.url, a.responseMode, a.responseErrors, a.state⟩

/-- The checks between the Return Params binding and the login-hint branch,
source lines 110-123, in source order: the origin whitelist, the required
`nonce`, the `response_type` check, and extraction of `login_hint` (default
empty). Yields the nonce and the login hint. -/
def phaseC (env : Env) (clientId : String) (params : List (String × String)) :
    Except String (String × String) :=
  let whitelistOk :=
    match env.allowedOrigins with
    | some wl => wl.contains clientId
    | none => true
  if whitelistOk = false then
    .error "the origin is not whitelisted"
  else
    match getParam params "nonce" with
    | none => .error (missingMsg "nonce")
    | some nonce =>
      match getParam params "response_type" with
      | none => .error (missingMsg "response_type")
      | some rt =>
        if rt ≠ "id_token" then
          .error "unsupported response_type, only id_token is supported"
        else
          .ok (nonce, paramOr params "login_hint" "")

/-- Outcome of the dispatch continuation chained onto discovery. -/
structure DispatchOut where
  result : Except BrokerError Response
  oidcCalled : Option Link
deriving Repr

/-- The `and_then` continuation on the discovery future, source lines
176-185: only `links.first()` is inspected; a first link with relation
OidcIssuer, Portier or Google is passed to `bridges::oidc::auth`; an empty
sequence or any other relation yields `ProviderCancelled`. -/
def dispatchStage (env : Env) (email : EmailAddr) (links : List Link) : DispatchOut :=
  match links.head? with
  | some link =>
    match link.rel with
    | .OidcIssuer | .Portier | .Google => ⟨env.oidcAuth email link, some link⟩
    | .Other => ⟨.error .ProviderCancelled, none⟩
  | none => ⟨.error .ProviderCancelled, none⟩

/-- Outcome and resolution time of the composed future `f`
(discovery `and_then` dispatch) that the timeout races. -/
structure DiscOut where
  result : Except BrokerError Response
  oidcCalled : Option Link
  secs : Nat
deriving Repr

/-- The composed future: `webfinger::query` chained with `dispatchStage`.
Its resolution time is the discovery time, plus the bridge time when the
dispatch actually invokes the OIDC bridge. -/
def composedFut (env : Env) (email : EmailAddr) : DiscOut :=
  match env.webfingerResult email with
  | .error e => ⟨.error e, none, env.discoverySecs⟩
  | .ok links =>
    let d := dispatchStage env email links
    ⟨d.result, d.oidcCalled,
      env.discoverySecs + (match d.oidcCalled with | some _ => env.oidcSecs | none => 0)⟩

/-- The fixed discovery deadline, `Duration::from_secs(5)`. -/
def timeoutSecs : Nat := 5

/-- What the task detached by `handle.spawn` does when it eventually
completes: `f.map(|_| ()).map_err(|e| { e.log(); () })` — the OIDC bridge is
still invoked if the link sequence warrants it, an error outcome is logged,
and a successful outcome is dropped. -/
structure BgOutcome where
  oidcCalled : Option Link
  logged : Option BrokerError
deriving DecidableEq, Repr

/-- The error component of an outcome, if any; a success carries no error. -/
def errPart : Except BrokerError Response → Option BrokerError
  | .ok _ => none
  | .error e => some e

/-- Outcome of the `select2` race between the 5-second timeout and the
composed future. -/
structure RaceOut where
  result : Except BrokerError Response
  oidcCalled : Option Link
  spawned : Option BgOutcome
deriving Repr

/-- Source lines 190-214: the timeout raced against the composed future.
The timer resolves first exactly when the composed future needs more than
`timeoutSecs` seconds (a tie resolves in favour of the composed future; real
time makes an exact tie a measure-zero event). If the timer wins, the
composed future is not cancelled: it is spawned onto the event loop to run
to completion, with only its error outcome logged, and the race yields the
Provider timeout error. Otherwise the composed future's outcome passes
through unchanged. Failure to construct the `Timeout` itself panics and is
not modelled as a recoverable outcome. -/
def raceDiscovery (env : Env) (email : EmailAddr) : RaceOut :=
  let d := composedFut env email
  if timeoutSecs < d.secs then
    { result := .error (.Provider ("discovery timed out for " ++ email.s))
      oidcCalled := none
      spawned := some ⟨d.oidcCalled, errPart d.result⟩ }
  else
    { result := d.result, oidcCalled := d.oidcCalled, spawned := none }

/-- Outcome of the fallback stage. -/
structure FallbackOut where
  result : Except BrokerError Response
  emailCalled : Bool
  logged : List BrokerError
deriving Repr

/-- Source lines 216-226: `f.or_else(|e| { e.log(); match e { Provider(_) |
ProviderCancelled => bridges::email::auth(..), _ => err(e) } })`. A success
passes through; an error is logged once, then Provider and ProviderCancelled
retry via the email-loop bridge while every other kind propagates unchanged. -/
def fallbackStage (env : Env) (email : EmailAddr)
    (r : Except BrokerError Response) : FallbackOut :=
  match r with
  | .ok v => ⟨.ok v, false, []⟩
  | .error e =>
    match e with
    | .Provider m => ⟨env.emailAuth email, true, [.Provider m]⟩
    | .ProviderCancelled => ⟨env.emailAuth email, true, [.ProviderCancelled]⟩
    | _ => ⟨.error e, false, [e]⟩

/-- Observable outcome of one run of the handler: the final result, the
Return Params slot and the history of assignments to it, which collaborators
were invoked, the errors logged by this handler, and the detached background
task if the timeout fired. `oidcCalled` records an OIDC bridge invocation
whose outcome stays on the foreground path; an invocation belonging to the
detached future is recorded inside `spawned`. -/
structure RunOut where
  result : Except BrokerError Response
  returnParams : Option ReturnParams
  rpAssignments : List ReturnParams
  limiterCalled : Bool
  session : Option Session
  discoveryInvoked : Bool
  oidcCalled : Option Link
  emailCalled : Bool
  logged : List BrokerError
  spawned : Option BgOutcome
deriving Repr

/-- A run that ends before the Return Params slot is bound and before any
collaborator is invoked. -/
def earlyOut (r : Except BrokerError Response) : RunOut :=
  { result := r, returnParams := none, rpAssignments := []
    limiterCalled := false, session := none, discoveryInvoked := false
    oidcCalled := none, emailCalled := false, logged := [], spawned := none }

/-- A run that ends after the slot is bound but before the rate limiter. -/
def boundOut (rp : ReturnParams) (r : Except BrokerError Response) : RunOut :=
  { result := r, returnParams := some rp, rpAssignments := [rp]
    limiterCalled := false, session := none, discoveryInvoked := false
    oidcCalled := none, emailCalled := false, logged := [], spawned := none }

/-- Source lines 159-228, from the rate-limit check onward: the limiter's
store error or rejection ends the run before the session and discovery;
otherwise the session is created, discovery raced against the timeout, and
the fallback policy applied to the outcome. -/
def authRunLimited (env : Env) (a : ValidatedA) (nonce loginHint : String)
    (email : EmailAddr) : RunOut :=
  match env.addrLimiter email.s with
  | .error err =>
    { boundOut (mkReturnParams a) (.error err) with limiterCalled := true }
  | .ok false =>
    { boundOut (mkReturnParams a) (.error .RateLimited) with limiterCalled := true }
  | .ok true =>
    let race := raceDiscovery env email
    let fb := fallbackStage env email race.result
    { result := fb.result
      returnParams := some (mkReturnParams a)
      rpAssignments := [mkReturnParams a]
      limiterCalled := true
      session := some ⟨a.clientId, loginHint, email, nonce⟩
      discoveryInvoked := true
      oidcCalled := race.oidcCalled
      emailCalled := fb.emailCalled
      logged := fb.logged
      spawned := race.spawned }

/-- Source lines 123-157: the login-hint branch. An empty (or absent) hint
returns the interactive form built from `original_params`; otherwise the
hint must parse as an email address, and the run continues with the
rate-limit check. -/
def authRunAfterC (env : Env) (a : ValidatedA) (nonce loginHint : String) : RunOut :=
  if loginHint = "" then
    boundOut (mkReturnParams a) (.ok (.loginHintForm a.url.full
      (env.publicUrl ++ "/auth") (methodStr env.method) (selectedParams env)))
  else
    match env.parseEmail loginHint with
    | none => boundOut (mkReturnParams a)
        (.error (.Input "login_hint is not a valid email address"))
    | some email => authRunLimited env a nonce loginHint email

/-- The run from the point where the Return Params slot has been bound:
`phaseC`, then the login-hint branch. -/
def authRunAfterA (env : Env) (a : ValidatedA) : RunOut :=
  match phaseC env a.clientId (selectedParams env) with
  | .error msg => boundOut (mkReturnParams a) (.error (.Input msg))
  | .ok (nonce, loginHint) => authRunAfterC env a nonce loginHint

/-- The `auth` handler, source lines 65-229, assembled from the stage
functions in source order: `phaseA` with the slot unset, then the slot
binding, then the rest of the run. -/
def authRun (env : Env) : RunOut :=
  match phaseA env with
  | .error msg => earlyOut (.error (.Input msg))
  | .ok a => authRunAfterA env a

/-! Concrete sample data used to instantiate the theorems below. -/

def sampleUrl : Url := ⟨"https://rp.example", "https://rp.example/cb"⟩

/-- A concrete URL parser recognizing one redirect URI. -/
def sampleParse (s : String) : Except String Url :=
  if s = "https://rp.example/cb" then .ok sampleUrl
  else .error "the redirect_uri is not a valid URL"

def sampleEmail : EmailAddr := ⟨"user@example.com"⟩

/-- A concrete email parser recognizing one address. -/
def sampleParseEmail (s : String) : Option EmailAddr :=
  if s = "user@example.com" then some sampleEmail else none

def goodParams : List (String × String) :=
  [("redirect_uri", "https://rp.example/cb"),
   ("client_id", "https://rp.example"),
   ("nonce", "N"),
   ("response_type", "id_token"),
   ("login_hint", "user@example.com"),
   ("extra", "kept")]

def sampleLink : Link := ⟨.OidcIssuer, "https://op.example"⟩

/-- A baseline environment: valid parameters, fast discovery yielding one
OIDC issuer link, permissive limiter, no whitelist. -/
def baseEnv : Env :=
  { method := .Get
    queryParams := goodParams
    formParams := []
    parseRedirectUri := sampleParse
    parseEmail := sampleParseEmail
    allowedOrigins := none
    publicUrl := "https://broker.example"
    addrLimiter := fun _ => .ok true
    webfingerResult := fun _ => .ok [sampleLink]
    discoverySecs := 1
    oidcSecs := 1
    oidcAuth := fun _ _ => .ok (.ext 1)
    emailAuth := fun _ => .ok (.ext 2) }

/-- Copy of `baseEnv` with one parameter replaced (or removed when `v` is `none`). -/
def withParam (env : Env) (name : String) (v : Option String) : Env :=
  { env with queryParams :=
      (env.queryParams.filter (fun p => p.1 ≠ name)) ++
        (match v with | some s => [(name, s)] | none => []) }

/-- Environment whose discovery alone exceeds the 5-second deadline. -/
def slowEnv : Env := { baseEnv with discoverySecs := 9 }

/-! ## Helper lemmas -/

/-- The steps after the client-identity check never produce the
client-identity mismatch error. -/
theorem phaseA2_ne_mismatch (rm re : String) (url : Url) (cid st : String) :
    phaseA2 rm re url cid st ≠
      .error "the client_id must be the origin of the redirect_uri" := by
  unfold phaseA2
  split
  · decide
  · split
    · decide
    · simp

/-- Whether a relation is one of the three that dispatch to the OIDC bridge. -/
def isSupportedRel : Relation → Bool
  | .Other => false
  | _ => true

/-- Dispatch on a supported first link invokes the OIDC bridge with exactly
that link. -/
theorem dispatchStage_supported (env : Env) (email : EmailAddr)
    (links : List Link) (link : Link) (hh : links.head? = some link)
    (hrel : isSupportedRel link.rel = true) :
    dispatchStage env email links = ⟨env.oidcAuth email link, some link⟩ := by
  obtain ⟨rel, href⟩ := link
  unfold dispatchStage
  rw [hh]
  cases rel <;> first | rfl | simp [isSupportedRel] at hrel

/-! ## Claim theorems -/

/-- Claim C1: every error reaching the fallback stage (the `or_else` applied
to the discovery/timeout/dispatch pipeline, after the rate-limit check has
passed) is logged; a Provider or ProviderCancelled error is retried through
the email-loop bridge, whose result becomes the stage's result; every other
kind propagates unchanged with the email-loop bridge never invoked. -/
theorem c1_fallback_policy (env : Env) (email : EmailAddr) (e : BrokerError) :
    (fallbackStage env email (.error e)).logged = [e] ∧
    (match e with
     | .Provider _ | .ProviderCancelled =>
        (fallbackStage env email (.error e)).result = env.emailAuth email ∧
        (fallbackStage env email (.error e)).emailCalled = true
     | _ =>
        (fallbackStage env email (.error e)).result = .error e ∧
        (fallbackStage env email (.error e)).emailCalled = false) := by
  cases e <;> exact ⟨rfl, rfl, rfl⟩

/-- Witness for C1 at a concrete environment and error. -/
theorem c1_witness :
    (fallbackStage baseEnv sampleEmail (.error .ProviderCancelled)).logged =
      [.ProviderCancelled] ∧
    ((fallbackStage baseEnv sampleEmail (.error .ProviderCancelled)).result =
        baseEnv.emailAuth sampleEmail ∧
      (fallbackStage baseEnv sampleEmail (.error .ProviderCancelled)).emailCalled = true) :=
  c1_fallback_policy baseEnv sampleEmail .ProviderCancelled

/-- Claim C2: when the 5-second timer beats the raced future, the race
yields exactly the Provider error "discovery timed out for <email>" with the
normalized address substituted, and the raced future is not cancelled: it is
detached to the background, where the only thing done with its eventual
outcome is logging its error component — the caller's result is the constant
timeout error, never the detached outcome. -/
theorem c2_timeout_yields_provider_error (env : Env) (email : EmailAddr)
    (h : timeoutSecs < (composedFut env email).secs) :
    (raceDiscovery env email).result =
      .error (.Provider ("discovery timed out for " ++ email.s)) ∧
    (raceDiscovery env email).spawned =
      some ⟨(composedFut env email).oidcCalled,
        errPart (composedFut env email).result⟩ := by
  simp only [raceDiscovery]
  rw [if_pos h]
  exact ⟨rfl, rfl⟩

/-- Witness for C2: discovery needing 9 seconds trips the deadline. -/
theorem c2_witness :
    timeoutSecs < (composedFut slowEnv sampleEmail).secs ∧
    ((raceDiscovery slowEnv sampleEmail).result =
        .error (.Provider ("discovery timed out for " ++ sampleEmail.s)) ∧
      (raceDiscovery slowEnv sampleEmail).spawned =
        some ⟨(composedFut slowEnv sampleEmail).oidcCalled,
          errPart (composedFut slowEnv sampleEmail).result⟩) :=
  ⟨by decide, c2_timeout_yields_provider_error slowEnv sampleEmail (by decide)⟩

/-- Claim C4: the dispatch continuation examines only the first link of a
successful discovery result; a first link with relation OidcIssuer, Portier
or Google is passed as-is to the OIDC bridge whose result is returned, while
an empty sequence or any other first relation yields ProviderCancelled. -/
theorem c4_dispatch_first_link (env : Env) (email : EmailAddr) :
    (∀ (link : Link) (rest : List Link), dispatchStage env email (link :: rest) =
      dispatchStage env email [link]) ∧
    dispatchStage env email [] = ⟨.error .ProviderCancelled, none⟩ ∧
    (∀ (link : Link) (rest : List Link),
      match link.rel with
      | .OidcIssuer | .Portier | .Google =>
          dispatchStage env email (link :: rest) =
            ⟨env.oidcAuth email link, some link⟩
      | .Other =>
          dispatchStage env email (link :: rest) =
            ⟨.error .ProviderCancelled, none⟩) := by
  refine ⟨?_, rfl, ?_⟩
  · intro link rest
    obtain ⟨rel, href⟩ := link
    cases rel <;> rfl
  · intro link rest
    obtain ⟨rel, href⟩ := link
    cases rel <;> exact rfl

/-- Witness for C4 at a concrete one-link sequence. -/
theorem c4_witness :
    dispatchStage baseEnv sampleEmail [sampleLink] =
      ⟨baseEnv.oidcAuth sampleEmail sampleLink, some sampleLink⟩ :=
  (c4_dispatch_first_link baseEnv sampleEmail).2.2 sampleLink []

/-- Environment whose discovery is fast but whose OIDC bridge call pushes the
composed future past the deadline. -/
def slowBridgeEnv : Env := { baseEnv with oidcSecs := 10 }

/-- Claim C3 counterexample: discovery resolves in 1 second, well within the
5-second deadline, and yields a usable link whose bridge call would succeed;
yet because the bridge needs 10 more seconds, the race yields the timeout
error — the provider-bridge dispatch is subject to the 5-second deadline,
contradicting the claim that the deadline applies to discovery only. -/
theorem c3_counterexample :
    slowBridgeEnv.discoverySecs < timeoutSecs ∧
    (dispatchStage slowBridgeEnv sampleEmail [sampleLink]).result = .ok (.ext 1) ∧
    (raceDiscovery slowBridgeEnv sampleEmail).result =
      .error (.Provider ("discovery timed out for " ++ sampleEmail.s)) :=
  ⟨by decide, rfl, rfl⟩

/-- Claim C3 amended: the fixed 5-second deadline applies to the composed
future of discovery plus the provider-bridge dispatch chained onto its
success — the timer races that composition, so bridge time counts toward the
deadline — while the fallback stage is subject to no timeout (its behaviour
is independent of the modelled durations). -/
theorem c3_amended_deadline (env : Env) (email : EmailAddr) :
    ((raceDiscovery env email).spawned.isSome ↔
      timeoutSecs < (composedFut env email).secs) ∧
    (∀ (links : List Link) (link : Link),
      env.webfingerResult email = .ok links → links.head? = some link →
      isSupportedRel link.rel = true →
      (composedFut env email).secs = env.discoverySecs + env.oidcSecs) ∧
    (∀ (r : Except BrokerError Response) (x y : Nat),
      fallbackStage { env with discoverySecs := x, oidcSecs := y } email r =
        fallbackStage env email r) := by
  refine ⟨?_, ?_, ?_⟩
  · simp only [raceDiscovery]
    by_cases h : timeoutSecs < (composedFut env email).secs
    · rw [if_pos h]; simpa using h
    · rw [if_neg h]; simpa using h
  · intro links link hw hh hrel
    simp only [composedFut, hw, dispatchStage_supported env email links link hh hrel]
  · intro r x y
    cases r with
    | ok v => rfl
    | error e => cases e <;> rfl

/-- Witness for the amended C3 at a concrete environment. -/
theorem c3_witness :
    ((raceDiscovery slowBridgeEnv sampleEmail).spawned.isSome ↔
      timeoutSecs < (composedFut slowBridgeEnv sampleEmail).secs) ∧
    (composedFut slowBridgeEnv sampleEmail).secs =
      slowBridgeEnv.discoverySecs + slowBridgeEnv.oidcSecs ∧
    fallbackStage { slowBridgeEnv with discoverySecs := 0, oidcSecs := 0 }
        sampleEmail (.error .ProviderCancelled) =
      fallbackStage slowBridgeEnv sampleEmail (.error .ProviderCancelled) :=
  ⟨(c3_amended_deadline slowBridgeEnv sampleEmail).1,
   (c3_amended_deadline slowBridgeEnv sampleEmail).2.1 [sampleLink] sampleLink
     rfl rfl rfl,
   (c3_amended_deadline slowBridgeEnv sampleEmail).2.2
     (.error .ProviderCancelled) 0 0⟩

/-- Claim C9: the future detached on a timeout is the composition of
discovery with the dispatch continuation, not discovery alone: when the
background discovery yields a usable first link, the detached task still
invokes the OIDC bridge with that link, its error outcome (if any) is
logged, and a successful outcome is discarded without logging — while the
race has already yielded the timeout error. -/
theorem c9_detached_includes_dispatch (env : Env) (email : EmailAddr)
    (links : List Link) (link : Link)
    (htime : timeoutSecs < (composedFut env email).secs)
    (hw : env.webfingerResult email = .ok links)
    (hh : links.head? = some link)
    (hrel : isSupportedRel link.rel = true) :
    (raceDiscovery env email).result =
      .error (.Provider ("discovery timed out for " ++ email.s)) ∧
    (raceDiscovery env email).spawned =
      some ⟨some link, errPart (env.oidcAuth email link)⟩ ∧
    (∀ v : Response, errPart (.ok v) = none) ∧
    (∀ e : BrokerError, errPart (.error e) = some e) := by
  have hc : composedFut env email =
      ⟨env.oidcAuth email link, some link, env.discoverySecs + env.oidcSecs⟩ := by
    simp only [composedFut, hw, dispatchStage_supported env email links link hh hrel]
  rw [hc] at htime
  simp only [raceDiscovery]
  rw [hc, if_pos htime]
  exact ⟨rfl, rfl, fun _ => rfl, fun _ => rfl⟩

/-- Witness for C9: slow discovery, usable link, successful bridge outcome. -/
theorem c9_witness :
    (raceDiscovery slowEnv sampleEmail).result =
      .error (.Provider ("discovery timed out for " ++ sampleEmail.s)) ∧
    (raceDiscovery slowEnv sampleEmail).spawned =
      some ⟨some sampleLink, errPart (slowEnv.oidcAuth sampleEmail sampleLink)⟩ ∧
    (∀ v : Response, errPart (.ok v) = none) ∧
    (∀ e : BrokerError, errPart (.error e) = some e) :=
  c9_detached_includes_dispatch slowEnv sampleEmail [sampleLink] sampleLink
    (by decide) rfl rfl rfl

/-- Environment whose client_id is not the redirect_uri's origin. -/
def mismatchEnv : Env := withParam baseEnv "client_id" (some "https://evil.example")

/-- Claim C5: with a redirect_uri that parses, the client-identity check
passes exactly when client_id equals the ASCII serialization of the
redirect_uri's origin: on a mismatch the run ends at once with the Input
error, before the slot is bound and before the rate limiter, discovery or
any bridge is invoked; on a match validation proceeds to the
response_mode/response_errors steps. -/
theorem c5_client_id_must_match_origin (env : Env) (ru cid : String) (url : Url)
    (hru : getParam (selectedParams env) "redirect_uri" = some ru)
    (hcid : getParam (selectedParams env) "client_id" = some cid)
    (hurl : env.parseRedirectUri ru = .ok url) :
    (phaseA env = .error "the client_id must be the origin of the redirect_uri" ↔
      cid ≠ url.originAscii) ∧
    (cid ≠ url.originAscii →
      authRun env = earlyOut
        (.error (.Input "the client_id must be the origin of the redirect_uri"))) ∧
    (cid = url.originAscii →
      phaseA env = phaseA2 (paramOr (selectedParams env) "response_mode" "fragment")
        (paramOr (selectedParams env) "response_errors" "true") url cid
        (paramOr (selectedParams env) "state" "")) := by
  by_cases h : cid = url.originAscii
  · have hA : phaseA env =
        phaseA2 (paramOr (selectedParams env) "response_mode" "fragment")
          (paramOr (selectedParams env) "response_errors" "true") url cid
          (paramOr (selectedParams env) "state" "") := by
      unfold phaseA
      simp only [hru, hcid, hurl]
      rw [if_neg (fun hne => hne h)]
    refine ⟨⟨fun hEq => ?_, fun hne => absurd h hne⟩,
      fun hne => absurd h hne, fun _ => hA⟩
    exact absurd (hA.symm.trans hEq) (phaseA2_ne_mismatch _ _ _ _ _)
  · have hA : phaseA env =
        .error "the client_id must be the origin of the redirect_uri" := by
      unfold phaseA
      simp only [hru, hcid, hurl]
      rw [if_pos h]
    refine ⟨⟨fun _ => h, fun _ => hA⟩, fun _ => ?_, fun hEq => absurd hEq h⟩
    unfold authRun
    rw [hA]

/-- Witness for C5 at a mismatching concrete client_id. -/
theorem c5_witness :
    authRun mismatchEnv = earlyOut
      (.error (.Input "the client_id must be the origin of the redirect_uri")) :=
  (c5_client_id_must_match_origin mismatchEnv "https://rp.example/cb"
      "https://evil.example" sampleUrl rfl rfl rfl).2.1 (by decide)

/-- A failing `phaseA` short-circuits the whole run with the slot unset. -/
theorem authRun_eq_early (env : Env) (msg : String)
    (h : phaseA env = .error msg) :
    authRun env = earlyOut (.error (.Input msg)) := by
  unfold authRun; rw [h]

/-- A successful `phaseA` continues with the rest of the run. -/
theorem authRun_eq_afterA (env : Env) (a : ValidatedA)
    (h : phaseA env = .ok a) :
    authRun env = authRunAfterA env a := by
  unfold authRun; rw [h]

/-- After `phaseA` succeeds, every continuation of the run carries exactly
one slot assignment, made right at the binding point. -/
theorem afterA_slot (env : Env) (a : ValidatedA) :
    (authRunAfterA env a).rpAssignments = [mkReturnParams a] ∧
    (authRunAfterA env a).returnParams = some (mkReturnParams a) := by
  unfold authRunAfterA authRunAfterC authRunLimited
  constructor
  all_goals repeat' split
  all_goals simp [boundOut]

/-- Claim C6: the Return Params slot starts unset and is assigned exactly
once — if and only if the five values validated by `phaseA` are all valid —
immediately after that validation; no later stage (whitelist, nonce and
response_type checks, login-hint branch, rate limit, session, discovery,
fallback) ever assigns or mutates it again, so the assignment history never
has more than one entry. -/
theorem c6_return_params_set_once (env : Env) :
    (authRun env).rpAssignments.length ≤ 1 ∧
    (match phaseA env with
     | .error _ => (authRun env).rpAssignments = [] ∧
         (authRun env).returnParams = none
     | .ok a => (authRun env).rpAssignments = [mkReturnParams a] ∧
         (authRun env).returnParams = some (mkReturnParams a)) := by
  rcases h : phaseA env with msg | a
  · rw [authRun_eq_early env msg h]
    simp [h, earlyOut]
  · have hs := afterA_slot env a
    rw [authRun_eq_afterA env a h] at *
    simp [h, hs.1, hs.2]

/-- Witness for C6 at the baseline environment. -/
theorem c6_witness :
    (authRun baseEnv).rpAssignments.length ≤ 1 ∧
    ((authRun baseEnv).rpAssignments =
        [mkReturnParams ⟨sampleUrl, "https://rp.example", .Fragment, true, ""⟩] ∧
      (authRun baseEnv).returnParams =
        some (mkReturnParams ⟨sampleUrl, "https://rp.example", .Fragment, true, ""⟩)) :=
  c6_return_params_set_once baseEnv

/-- The validated values of the baseline request. -/
def sampleValidated : ValidatedA :=
  ⟨sampleUrl, "https://rp.example", .Fragment, true, ""⟩

/-- Environment with an empty login hint (parameter absent). -/
def formEnv : Env := withParam baseEnv "login_hint" none

/-- Claim C8: when validation and the whitelist check pass and login_hint is
absent or empty, the handler returns the HTML form embedding every
originally supplied parameter (including unrecognized ones) verbatim, and
performs no rate-limit check, creates no session, starts no discovery and
calls no bridge. -/
theorem c8_login_hint_form (env : Env) (a : ValidatedA) (nonce : String)
    (hA : phaseA env = .ok a)
    (hC : phaseC env a.clientId (selectedParams env) = .ok (nonce, "")) :
    authRun env = boundOut (mkReturnParams a)
      (.ok (.loginHintForm a.url.full (env.publicUrl ++ "/auth")
        (methodStr env.method) (selectedParams env))) ∧
    (authRun env).limiterCalled = false ∧
    (authRun env).session = none ∧
    (authRun env).discoveryInvoked = false ∧
    (authRun env).oidcCalled = none ∧
    (authRun env).emailCalled = false := by
  have he : authRun env = boundOut (mkReturnParams a)
      (.ok (.loginHintForm a.url.full (env.publicUrl ++ "/auth")
        (methodStr env.method) (selectedParams env))) := by
    rw [authRun_eq_afterA env a hA]
    unfold authRunAfterA
    simp only [hC]
    unfold authRunAfterC
    rw [if_pos rfl]
  rw [he]
  exact ⟨rfl, rfl, rfl, rfl, rfl, rfl⟩

/-- Witness for C8 at a concrete request without login_hint. -/
theorem c8_witness :
    authRun formEnv = boundOut (mkReturnParams sampleValidated)
      (.ok (.loginHintForm sampleValidated.url.full (formEnv.publicUrl ++ "/auth")
        (methodStr formEnv.method) (selectedParams formEnv))) ∧
    (authRun formEnv).limiterCalled = false ∧
    (authRun formEnv).session = none ∧
    (authRun formEnv).discoveryInvoked = false ∧
    (authRun formEnv).oidcCalled = none ∧
    (authRun formEnv).emailCalled = false :=
  c8_login_hint_form formEnv sampleValidated "N" rfl rfl

/-- Claim C7: with a present, non-empty, valid login_hint, the limiter runs
before session creation and discovery: a store-level limiter error is
propagated unchanged and a rejection yields the terminal RateLimited error,
in both cases with no session, no discovery, no bridge call and no
email-loop fallback; only an allowing limiter lets the session be created
and discovery start. -/
theorem c7_rate_limit_gate (env : Env) (a : ValidatedA) (nonce lh : String)
    (email : EmailAddr)
    (hA : phaseA env = .ok a)
    (hC : phaseC env a.clientId (selectedParams env) = .ok (nonce, lh))
    (hlh : lh ≠ "")
    (hem : env.parseEmail lh = some email) :
    (authRun env).limiterCalled = true ∧
    (match env.addrLimiter email.s with
     | .error err => (authRun env).result = .error err ∧
         (authRun env).session = none ∧ (authRun env).discoveryInvoked = false ∧
         (authRun env).oidcCalled = none ∧ (authRun env).emailCalled = false ∧
         (authRun env).spawned = none
     | .ok false => (authRun env).result = .error .RateLimited ∧
         (authRun env).session = none ∧ (authRun env).discoveryInvoked = false ∧
         (authRun env).oidcCalled = none ∧ (authRun env).emailCalled = false ∧
         (authRun env).spawned = none
     | .ok true => (authRun env).session = some ⟨a.clientId, lh, email, nonce⟩ ∧
         (authRun env).discoveryInvoked = true) := by
  have hrun : authRun env = authRunLimited env a nonce lh email := by
    rw [authRun_eq_afterA env a hA]
    unfold authRunAfterA
    simp only [hC]
    unfold authRunAfterC
    rw [if_neg hlh]
    simp only [hem]
  rw [hrun]
  unfold authRunLimited
  rcases hl : env.addrLimiter email.s with err | b
  · simp [hl, boundOut]
  · cases b <;> simp [hl, boundOut]

/-- Environment whose limiter rejects the address. -/
def limitEnv : Env := { baseEnv with addrLimiter := fun _ => .ok false }

/-- Witness for C7 at a concrete rejected request. -/
theorem c7_witness :
    (authRun limitEnv).limiterCalled = true ∧
    ((authRun limitEnv).result = .error .RateLimited ∧
      (authRun limitEnv).session = none ∧
      (authRun limitEnv).discoveryInvoked = false ∧
      (authRun limitEnv).oidcCalled = none ∧
      (authRun limitEnv).emailCalled = false ∧
      (authRun limitEnv).spawned = none) :=
  c7_rate_limit_gate limitEnv sampleValidated "N" "user@example.com" sampleEmail
    rfl rfl (by decide) rfl

/-- Claim C10: Input errors partition around the slot-binding point: every
`phaseA` failure (missing redirect_uri or client_id, redirect_uri parse
failure, client_id/origin mismatch, invalid response_mode or
response_errors) ends the run with the slot unset, while once `phaseA`
succeeds the slot is bound, so the later failures (whitelist rejection,
missing nonce, wrong response_type in `phaseC`, and invalid login_hint email
syntax) all report with the slot set. -/
theorem c10_error_partition (env : Env) :
    (match phaseA env with
     | .error msg => (authRun env).result = .error (.Input msg) ∧
         (authRun env).returnParams = none
     | .ok a =>
       (authRun env).returnParams = some (mkReturnParams a) ∧
       (match phaseC env a.clientId (selectedParams env) with
        | .error msg => (authRun env).result = .error (.Input msg)
        | .ok (_, lh) =>
          if lh = "" then True
          else
            match env.parseEmail lh with
            | none => (authRun env).result =
                .error (.Input "login_hint is not a valid email address")
            | some _ => True)) := by
  rcases h : phaseA env with msg | a
  · rw [authRun_eq_early env msg h]
    simp [h, earlyOut]
  · have he := authRun_eq_afterA env a h
    simp only [h]
    constructor
    · rw [he]; exact (afterA_slot env a).2
    · rcases hc : phaseC env a.clientId (selectedParams env) with msg | ⟨n, lh⟩
      · simp only [hc]
        rw [he]; unfold authRunAfterA; simp only [hc]; simp [boundOut]
      · simp only [hc]
        by_cases hl : lh = ""
        · rw [if_pos hl]; trivial
        · rw [if_neg hl]
          rcases hem : env.parseEmail lh with _ | em
          · simp only [hem]
            rw [he]; unfold authRunAfterA; simp only [hc]
            unfold authRunAfterC; rw [if_neg hl]; simp only [hem]
            simp [boundOut]
          · simp only [hem]

/-- Environment missing the required nonce parameter. -/
def noNonceEnv : Env := withParam baseEnv "nonce" none

/-- Witness for C10: a missing nonce is reported with the slot already set. -/
theorem c10_witness :
    (authRun noNonceEnv).returnParams = some (mkReturnParams sampleValidated) ∧
    (authRun noNonceEnv).result = .error (.Input (missingMsg "nonce")) :=
  c10_error_partition noNonceEnv

end PortierAuth
